import Mathlib

/-!
Shallow embedding of the QieLend repository lending contracts.

The primary contract is `QieLendNative` (src/contracts/QieLendNative.sol,
lines 1-341); the legacy ERC20 contract `QieLend` (same file, lines 343-828)
is embedded in the namespace `QieLendE` for the parts the claims need.

Modelling conventions:
  - `uint256` values are `Nat`.  Solidity 0.8 checked arithmetic reverts on
    overflow/underflow; additions and multiplications on `Nat` cannot
    overflow, and every subtraction below is either guarded by a preceding
    `require` in the source or covered by an explicit hypothesis of the
    theorems that use it, so `Nat` truncating subtraction coincides with the
    checked semantics on the inputs considered.
  - Solidity reverts on division by a zero denominator.  The only site in
    the source where a zero denominator is reachable is `liquidate`, which
    divides by the raw `account.borrowIndex` (every other call site guards
    the zero case); that one site is modelled with an explicit
    `DivisionByZero` error.
  - A reverting call is `Except.error e`; since a revert rolls back all
    state, an error carries no state.
  - Native value transfer `call{value: x}` to an externally owned account
    succeeds exactly when `x` is at most the contract balance, so the
    contract balance is part of the state; `payable` entry points add
    `msg.value` to the balance on entry.
  - Addresses are `Nat`; the account mapping is a total function with the
    zero-initialized account as default, matching Solidity storage.
-/

namespace QieLendN

abbrev Addr := Nat

/-- Per-user storage: struct `UserAccount` of QieLendNative.sol lines 31-39. -/
structure UserAccount where
  supplyBalance : Nat
  borrowBalance : Nat
  supplyIndex : Nat
  borrowIndex : Nat
  collateralEnabled : Bool
  accruedRewards : Nat
  lastRewardUpdate : Nat
deriving Repr, DecidableEq

/-- Global contract storage of QieLendNative.sol lines 22-41 plus the native
balance of the contract. -/
structure State where
  totalSupply : Nat
  totalBorrow : Nat
  totalReserves : Nat
  lastUpdateTime : Nat
  exchangeRate : Nat
  supplyIndex : Nat
  borrowIndex : Nat
  accounts : Addr → UserAccount
  contractBalance : Nat

/-- Revert reasons of QieLendNative.sol (custom errors lines 52-56, require
messages, the bare revert in liquidate line 190, and the arithmetic panic
from dividing by zero). -/
inductive Err where
  | InvalidAmount
  | InsufficientBalance
  | CollateralDisabled
  | ExceedsBorrowCapacity
  | InsufficientLiquidity
  | TransferFailed
  | RepayBeforeDisabling
  | NoRewards
  | NoCollateral
  | SelfLiquidation
  | NotLiquidatable
  | InsufficientCollateral
  | DivisionByZero
deriving Repr, DecidableEq

def COLLATERAL_FACTOR : Nat := 7000
def LIQUIDATION_THRESHOLD : Nat := 8000
def LIQUIDATION_BONUS : Nat := 5
def RESERVE_FACTOR : Nat := 4000
def SECONDS_PER_YEAR : Nat := 365 * 86400
def BASE_RATE : Nat := 200
def KINK_UTILIZATION : Nat := 8000
def MULTIPLIER : Nat := 800
def JUMP_MULTIPLIER : Nat := 2000
def UINT_MAX : Nat := 2 ^ 256 - 1

/-- `_calculateBorrowRate`, QieLendNative.sol lines 326-334. -/
def calculateBorrowRate (utilization : Nat) : Nat :=
  if utilization ≤ KINK_UTILIZATION then
    BASE_RATE + utilization * MULTIPLIER / KINK_UTILIZATION
  else
    BASE_RATE + MULTIPLIER +
      (utilization - KINK_UTILIZATION) * JUMP_MULTIPLIER / (10000 - KINK_UTILIZATION)

/-- `_calculateHealthFactor`, QieLendNative.sol lines 336-340. -/
def calculateHealthFactor (supplyBalance borrowBalance : Nat) : Nat :=
  if borrowBalance = 0 then UINT_MAX
  else supplyBalance * LIQUIDATION_THRESHOLD / 10000 * 10 ^ 18 / borrowBalance

/-- Write one account slot of the mapping. -/
def setAccount (s : State) (user : Addr) (acct : UserAccount) : State :=
  { s with accounts := fun a => if a = user then acct else s.accounts a }

/-- `_accrueInterest`, QieLendNative.sol lines 282-306. -/
def accrueInterest (s : State) (now : Nat) : State :=
  let timeElapsed := now - s.lastUpdateTime
  if timeElapsed = 0 ∨ s.totalSupply = 0 then
    { s with lastUpdateTime := now }
  else
    let utilization := if 0 < s.totalBorrow then s.totalBorrow * 10 ^ 18 / s.totalSupply else 0
    let borrowRate := calculateBorrowRate (utilization * 10000 / 10 ^ 18)
    let borrowRatePerSecond := borrowRate * 10 ^ 18 / (10000 * SECONDS_PER_YEAR)
    let interestAccrued := s.totalBorrow * borrowRatePerSecond * timeElapsed / 10 ^ 18
    let reserveAmount := interestAccrued * RESERVE_FACTOR / 10000
    let supplyInterest := interestAccrued - reserveAmount
    let exchangeRate' :=
      if 0 < s.totalSupply then s.exchangeRate + supplyInterest * 10 ^ 18 / s.totalSupply
      else s.exchangeRate
    let borrowIndex' :=
      if 0 < s.totalBorrow then s.borrowIndex + interestAccrued * 10 ^ 18 / s.totalBorrow
      else s.borrowIndex
    { s with
      exchangeRate := exchangeRate'
      borrowIndex := borrowIndex'
      supplyIndex := exchangeRate'
      totalReserves := s.totalReserves + reserveAmount
      totalBorrow := s.totalBorrow + interestAccrued
      totalSupply := s.totalSupply + supplyInterest
      lastUpdateTime := now }

/-- `_updateUserRewards`, QieLendNative.sol lines 308-324. -/
def updateUserRewards (s : State) (user : Addr) (now : Nat) : State :=
  let account := s.accounts user
  if account.supplyBalance = 0 then
    setAccount s user { account with lastRewardUpdate := now }
  else
    let timeElapsed := now - account.lastRewardUpdate
    if timeElapsed = 0 then s
    else
      let userSupplyBalance := account.supplyBalance * s.exchangeRate / 10 ^ 18
      let utilization := if 0 < s.totalBorrow then s.totalBorrow * 10000 / s.totalSupply else 0
      let borrowRate := calculateBorrowRate utilization
      let supplyRate := borrowRate * (10000 - RESERVE_FACTOR) / 10000
      let supplyRatePerSecond := supplyRate * 10 ^ 18 / (10000 * SECONDS_PER_YEAR)
      let rewardsPerSecond := userSupplyBalance * supplyRatePerSecond / 10 ^ 18
      setAccount s user
        { account with
          accruedRewards := account.accruedRewards + rewardsPerSecond * timeElapsed
          lastRewardUpdate := now }

/-- The two modifiers `updateInterest` and `updateUserRewards` that prefix
every mutating entry point (QieLendNative.sol lines 58-66). -/
def prep (s : State) (user : Addr) (now : Nat) : State :=
  updateUserRewards (accrueInterest s now) user now

/-- View `getSupplyBalance`, QieLendNative.sol lines 222-225. -/
def getSupplyBalance (s : State) (user : Addr) : Nat :=
  (s.accounts user).supplyBalance * s.exchangeRate / 10 ^ 18

/-- View `getBorrowBalance`, QieLendNative.sol lines 227-232: the derived
real borrow balance, 0 when the scaled balance is 0. -/
def getBorrowBalance (s : State) (user : Addr) : Nat :=
  let account := s.accounts user
  let borrowIdx := if account.borrowIndex = 0 then s.borrowIndex else account.borrowIndex
  if account.borrowBalance = 0 then 0
  else account.borrowBalance * s.borrowIndex / borrowIdx

/-- View `getSupplyAPY`, QieLendNative.sol lines 255-261. -/
def getSupplyAPY (s : State) : Nat :=
  if s.totalSupply = 0 then BASE_RATE
  else
    let utilization := s.totalBorrow * 10000 / s.totalSupply
    calculateBorrowRate utilization * (10000 - RESERVE_FACTOR) / 10000

/-- View `getAccruedRewards`, QieLendNative.sol lines 269-280. -/
def getAccruedRewards (s : State) (user : Addr) (now : Nat) : Nat :=
  let account := s.accounts user
  if account.supplyBalance = 0 then account.accruedRewards
  else
    let timeElapsed := now - account.lastRewardUpdate
    if timeElapsed = 0 then account.accruedRewards
    else
      let userSupplyBalance := account.supplyBalance * s.exchangeRate / 10 ^ 18
      let supplyAPY := getSupplyAPY s
      let supplyRate := supplyAPY * 10 ^ 18 / 10000
      let rewardsPerSecond := userSupplyBalance * supplyRate / SECONDS_PER_YEAR
      account.accruedRewards + rewardsPerSecond * timeElapsed

/-- `supplyNative`, QieLendNative.sol lines 70-82 (payable). -/
def supplyNative (s : State) (sender : Addr) (value now : Nat) : Except Err State :=
  let s := { s with contractBalance := s.contractBalance + value }
  let s := prep s sender now
  if value = 0 then .error .InvalidAmount
  else
    let account := s.accounts sender
    let supplyAmount := value * 10 ^ 18 / s.exchangeRate
    let account := { account with
      supplyBalance := account.supplyBalance + supplyAmount
      supplyIndex := s.supplyIndex }
    .ok { setAccount s sender account with totalSupply := s.totalSupply + value }

/-- `withdraw`, QieLendNative.sol lines 84-109. -/
def withdraw (s : State) (sender : Addr) (amount now : Nat) : Except Err State :=
  let s := prep s sender now
  if amount = 0 then .error .InvalidAmount
  else
    let account := s.accounts sender
    let userSupplyBalance := account.supplyBalance * s.exchangeRate / 10 ^ 18
    if userSupplyBalance < amount then .error .InsufficientBalance
    else
      let newSupplyBalance := userSupplyBalance - amount
      let maxBorrow := newSupplyBalance * COLLATERAL_FACTOR / 10000
      let borrowIdx := if account.borrowIndex = 0 then s.borrowIndex else account.borrowIndex
      let currentBorrow := account.borrowBalance * s.borrowIndex / borrowIdx
      if account.collateralEnabled = true ∧ 0 < account.borrowBalance ∧ maxBorrow < currentBorrow
      then .error .CollateralDisabled
      else
        let withdrawAmount := amount * 10 ^ 18 / s.exchangeRate
        let account := { account with
          supplyBalance := account.supplyBalance - withdrawAmount
          supplyIndex := s.supplyIndex }
        let s := { setAccount s sender account with totalSupply := s.totalSupply - amount }
        if s.contractBalance < amount then .error .TransferFailed
        else .ok { s with contractBalance := s.contractBalance - amount }

/-- `borrow`, QieLendNative.sol lines 111-134. -/
def borrow (s : State) (sender : Addr) (amount now : Nat) : Except Err State :=
  let s := prep s sender now
  if amount = 0 then .error .InvalidAmount
  else
    let account := s.accounts sender
    if account.collateralEnabled = false then .error .CollateralDisabled
    else
      let userSupplyBalance := account.supplyBalance * s.exchangeRate / 10 ^ 18
      let maxBorrow := userSupplyBalance * COLLATERAL_FACTOR / 10000
      let borrowIdx := if account.borrowIndex = 0 then s.borrowIndex else account.borrowIndex
      let userBorrowBalance :=
        if account.borrowBalance = 0 then 0
        else account.borrowBalance * s.borrowIndex / borrowIdx
      if maxBorrow < userBorrowBalance + amount then .error .ExceedsBorrowCapacity
      else if s.totalSupply < s.totalBorrow + amount then .error .InsufficientLiquidity
      else
        let account := { account with
          borrowBalance := account.borrowBalance + amount * 10 ^ 18 / s.borrowIndex
          borrowIndex := s.borrowIndex }
        let s := { setAccount s sender account with totalBorrow := s.totalBorrow + amount }
        if s.contractBalance < amount then .error .TransferFailed
        else .ok { s with contractBalance := s.contractBalance - amount }

/-- `repay`, QieLendNative.sol lines 136-156 (payable). -/
def repay (s : State) (sender : Addr) (value now : Nat) : Except Err State :=
  let s := { s with contractBalance := s.contractBalance + value }
  let s := prep s sender now
  if value = 0 then .error .InvalidAmount
  else
    let account := s.accounts sender
    let borrowIdx := if account.borrowIndex = 0 then s.borrowIndex else account.borrowIndex
    let userBorrowBalance :=
      if account.borrowBalance = 0 then 0
      else account.borrowBalance * s.borrowIndex / borrowIdx
    let repayAmount := if userBorrowBalance < value then userBorrowBalance else value
    let account := { account with
      borrowBalance := (userBorrowBalance - repayAmount) * 10 ^ 18 / s.borrowIndex
      borrowIndex := s.borrowIndex }
    let s := { setAccount s sender account with totalBorrow := s.totalBorrow - repayAmount }
    if repayAmount < value then
      .ok { s with totalReserves := s.totalReserves + (value - repayAmount) }
    else .ok s

/-- `setCollateralEnabled`, QieLendNative.sol lines 158-167. -/
def setCollateralEnabled (s : State) (sender : Addr) (enabled : Bool) (now : Nat) :
    Except Err State :=
  let s := prep s sender now
  let account := s.accounts sender
  if enabled = false ∧ 0 < account.borrowBalance then
    let borrowIdx := if account.borrowIndex = 0 then s.borrowIndex else account.borrowIndex
    let userBorrowBalance :=
      if account.borrowBalance = 0 then 0
      else account.borrowBalance * s.borrowIndex / borrowIdx
    if userBorrowBalance ≠ 0 then .error .RepayBeforeDisabling
    else .ok (setAccount s sender { account with collateralEnabled := enabled })
  else .ok (setAccount s sender { account with collateralEnabled := enabled })

/-- `claimRewards`, QieLendNative.sol lines 169-185. -/
def claimRewards (s : State) (sender : Addr) (now : Nat) : Except Err State :=
  let s := prep s sender now
  let account := s.accounts sender
  let rewardAmount := account.accruedRewards
  if rewardAmount = 0 then .error .NoRewards
  else
    let account := { account with accruedRewards := 0, lastRewardUpdate := now }
    let s := setAccount s sender account
    let rewardAmount :=
      if s.contractBalance < rewardAmount then s.contractBalance else rewardAmount
    .ok { s with contractBalance := s.contractBalance - rewardAmount }

/-- `liquidate`, QieLendNative.sol lines 187-220 (payable).  Line 196 divides
by the raw `borrowerAccount.borrowIndex` with no zero guard, so a borrower
whose index was never set makes the call revert with an arithmetic panic. -/
def liquidate (s : State) (sender borrower : Addr) (value now : Nat) : Except Err State :=
  let s := { s with contractBalance := s.contractBalance + value }
  let s := accrueInterest s now
  if value = 0 then .error .InvalidAmount
  else if borrower = sender then .error .SelfLiquidation
  else
    let borrowerAccount := s.accounts borrower
    if borrowerAccount.collateralEnabled = false then .error .NoCollateral
    else
      let borrowerSupplyBalance := borrowerAccount.supplyBalance * s.exchangeRate / 10 ^ 18
      if borrowerAccount.borrowIndex = 0 then .error .DivisionByZero
      else
        let borrowerBorrowBalance :=
          borrowerAccount.borrowBalance * s.borrowIndex / borrowerAccount.borrowIndex
        let healthFactor := calculateHealthFactor borrowerSupplyBalance borrowerBorrowBalance
        if 10 ^ 18 ≤ healthFactor then .error .NotLiquidatable
        else
          let repayAmt :=
            if borrowerBorrowBalance < value then borrowerBorrowBalance else value
          let liquidationBonus := repayAmt * LIQUIDATION_BONUS / 10000
          let seizeAmount := repayAmt + liquidationBonus
          if borrowerSupplyBalance < seizeAmount then .error .InsufficientCollateral
          else
            let seizeAmountScaled := seizeAmount * 10 ^ 18 / s.exchangeRate
            let borrowerAccount := { borrowerAccount with
              borrowBalance := (borrowerBorrowBalance - repayAmt) * 10 ^ 18 / s.borrowIndex
              borrowIndex := s.borrowIndex
              supplyBalance := borrowerAccount.supplyBalance - seizeAmountScaled
              supplyIndex := s.supplyIndex }
            let s := { setAccount s borrower borrowerAccount with
              totalBorrow := s.totalBorrow - repayAmt
              totalSupply := s.totalSupply - seizeAmount }
            if s.contractBalance < seizeAmount then .error .TransferFailed
            else .ok { s with contractBalance := s.contractBalance - seizeAmount }

/-- The zero-initialized account record. -/
def initAccount : UserAccount :=
  { supplyBalance := 0, borrowBalance := 0, supplyIndex := 0, borrowIndex := 0
    collateralEnabled := false, accruedRewards := 0, lastRewardUpdate := 0 }

/-- The contract state right after deployment (QieLendNative has no
constructor; storage defaults plus the initializers of lines 27-29). -/
def initState : State :=
  { totalSupply := 0, totalBorrow := 0, totalReserves := 0, lastUpdateTime := 0
    exchangeRate := 10 ^ 18, supplyIndex := 10 ^ 18, borrowIndex := 10 ^ 18
    accounts := fun _ => initAccount, contractBalance := 0 }

/-- Reachable protocol states: produced from the deployment state by a
finite sequence of successful external calls with non-decreasing
timestamps; every call runs interest accrual (and, except liquidate, the
caller reward sync) before its body, as the modifiers do. -/
inductive Reachable : State → Prop where
  | init : Reachable initState
  | supplyStep (s s' : State) (sender value now : Nat) :
      Reachable s → s.lastUpdateTime ≤ now →
      supplyNative s sender value now = .ok s' → Reachable s'
  | withdrawStep (s s' : State) (sender amount now : Nat) :
      Reachable s → s.lastUpdateTime ≤ now →
      withdraw s sender amount now = .ok s' → Reachable s'
  | borrowStep (s s' : State) (sender amount now : Nat) :
      Reachable s → s.lastUpdateTime ≤ now →
      borrow s sender amount now = .ok s' → Reachable s'
  | repayStep (s s' : State) (sender value now : Nat) :
      Reachable s → s.lastUpdateTime ≤ now →
      repay s sender value now = .ok s' → Reachable s'
  | collateralStep (s s' : State) (sender : Addr) (enabled : Bool) (now : Nat) :
      Reachable s → s.lastUpdateTime ≤ now →
      setCollateralEnabled s sender enabled now = .ok s' → Reachable s'
  | claimStep (s s' : State) (sender now : Nat) :
      Reachable s → s.lastUpdateTime ≤ now →
      claimRewards s sender now = .ok s' → Reachable s'
  | liquidateStep (s s' : State) (sender borrower value now : Nat) :
      Reachable s → s.lastUpdateTime ≤ now →
      liquidate s sender borrower value now = .ok s' → Reachable s'

/-- Extract the success state of a call (used to name concrete run states). -/
def okOr (e : Except Err State) : State :=
  match e with
  | .ok s => s
  | .error _ => initState

end QieLendN

/-!
The legacy ERC20 contract `QieLend` (QieLendNative.sol lines 351-828).  It
has the same storage layout, so the `State` and `UserAccount` types are
reused (its ERC20 token balance plays no role in the claims, and its token
transfers are modelled as succeeding, the token being an external
collaborator).  Only the parts the claims need are embedded: the rate model
and accrual (with the QieLend constants), the reward sync, and `withdraw`
(lines 454-482), whose collateral check at line 467 compares the stored
scaled `borrowBalance` against `maxBorrow`.
-/
namespace QieLendE

open QieLendN (Addr UserAccount State Err setAccount initAccount)

def COLLATERAL_FACTOR : Nat := 70
def LIQUIDATION_THRESHOLD : Nat := 80
def LIQUIDATION_BONUS : Nat := 5
def RESERVE_FACTOR : Nat := 12
def SECONDS_PER_YEAR : Nat := 365 * 86400
def BASE_RATE : Nat := 2
def KINK_UTILIZATION : Nat := 80
def MULTIPLIER : Nat := 15
def JUMP_MULTIPLIER : Nat := 100

/-- `_calculateBorrowRate`, QieLendNative.sol lines 807-817. -/
def calculateBorrowRate (utilization : Nat) : Nat :=
  if utilization ≤ KINK_UTILIZATION then
    BASE_RATE + utilization * MULTIPLIER / KINK_UTILIZATION
  else
    BASE_RATE + MULTIPLIER +
      (utilization - KINK_UTILIZATION) * JUMP_MULTIPLIER / (10000 - KINK_UTILIZATION)

/-- `_accrueInterest`, QieLendNative.sol lines 729-771. -/
def accrueInterest (s : State) (now : Nat) : State :=
  let timeElapsed := now - s.lastUpdateTime
  if timeElapsed = 0 ∨ s.totalSupply = 0 then
    { s with lastUpdateTime := now }
  else
    let utilization := if 0 < s.totalBorrow then s.totalBorrow * 10 ^ 18 / s.totalSupply else 0
    let borrowRate := calculateBorrowRate (utilization * 10000 / 10 ^ 18)
    let borrowRatePerSecond := borrowRate * 10 ^ 18 / (10000 * SECONDS_PER_YEAR)
    let interestAccrued := s.totalBorrow * borrowRatePerSecond * timeElapsed / 10 ^ 18
    let reserveAmount := interestAccrued * RESERVE_FACTOR / 10000
    let supplyInterest := interestAccrued - reserveAmount
    let exchangeRate' :=
      if 0 < s.totalSupply then s.exchangeRate + supplyInterest * 10 ^ 18 / s.totalSupply
      else s.exchangeRate
    let borrowIndex' :=
      if 0 < s.totalBorrow then s.borrowIndex + interestAccrued * 10 ^ 18 / s.totalBorrow
      else s.borrowIndex
    { s with
      exchangeRate := exchangeRate'
      borrowIndex := borrowIndex'
      supplyIndex := exchangeRate'
      totalReserves := s.totalReserves + reserveAmount
      totalBorrow := s.totalBorrow + interestAccrued
      totalSupply := s.totalSupply + supplyInterest
      lastUpdateTime := now }

/-- `_updateUserRewards`, QieLendNative.sol lines 776-802. -/
def updateUserRewards (s : State) (user : Addr) (now : Nat) : State :=
  let account := s.accounts user
  if account.supplyBalance = 0 then
    setAccount s user { account with lastRewardUpdate := now }
  else
    let timeElapsed := now - account.lastRewardUpdate
    if timeElapsed = 0 then s
    else
      let userSupplyBalance := account.supplyBalance * s.exchangeRate / 10 ^ 18
      let utilization := if 0 < s.totalBorrow then s.totalBorrow * 10000 / s.totalSupply else 0
      let borrowRate := calculateBorrowRate utilization
      let supplyRate := borrowRate * (10000 - RESERVE_FACTOR) / 10000
      let supplyRatePerSecond := supplyRate * 10 ^ 18 / (10000 * SECONDS_PER_YEAR)
      let rewardsPerSecond := userSupplyBalance * supplyRatePerSecond / 10 ^ 18
      setAccount s user
        { account with
          accruedRewards := account.accruedRewards + rewardsPerSecond * timeElapsed
          lastRewardUpdate := now }

/-- `QieLend.withdraw`, QieLendNative.sol lines 454-482.  The collateral
check (line 467) requires `account.borrowBalance <= maxBorrow`, i.e. it uses
the stored scaled borrow balance, not the index-adjusted current debt. -/
def withdraw (s : State) (sender : Addr) (amount now : Nat) : Except Err State :=
  let s := updateUserRewards (accrueInterest s now) sender now
  if amount = 0 then .error .InvalidAmount
  else
    let account := s.accounts sender
    let userSupplyBalance := account.supplyBalance * s.exchangeRate / 10 ^ 18
    if userSupplyBalance < amount then .error .InsufficientBalance
    else
      let newSupplyBalance := userSupplyBalance - amount
      let maxBorrow := newSupplyBalance * COLLATERAL_FACTOR / 10000
      if account.collateralEnabled = true ∧ 0 < account.borrowBalance ∧
          maxBorrow < account.borrowBalance
      then .error .CollateralDisabled
      else
        let withdrawAmount := amount * 10 ^ 18 / s.exchangeRate
        let account := { account with
          supplyBalance := account.supplyBalance - withdrawAmount
          supplyIndex := s.supplyIndex }
        .ok { setAccount s sender account with totalSupply := s.totalSupply - amount }

end QieLendE

namespace QieLendN

/-! ### Concrete states used by the claim theorems

Each is a storage configuration of the contract together with the states a
call produces from it.  `okOr` names the success state of a call. -/

/-- borrowIndex has grown to 2e18; account 0 last touched its borrow at
index 1e18 with scaled balance 100, so its real borrow is 200. -/
def c1State : State :=
  { initState with
    totalSupply := 1000, totalBorrow := 200, contractBalance := 1000
    borrowIndex := 2 * 10 ^ 18
    accounts := fun a => if a = 0 then
      { supplyBalance := 1000, borrowBalance := 100, supplyIndex := 10 ^ 18
        borrowIndex := 10 ^ 18, collateralEnabled := true
        accruedRewards := 0, lastRewardUpdate := 0 } else initAccount }

def c1After : State := okOr (borrow c1State 0 10 0)

/-- Deployment state, after: supply 1000 by account 0 at time 0. -/
def c2Run1 : State := okOr (supplyNative initState 0 1000 0)

/-- ... then collateral enabled at time 0. -/
def c2Run2 : State := okOr (setCollateralEnabled c2Run1 0 true 0)

/-- ... then borrow 700 at time 0 (utilization 70%). -/
def c2Run3 : State := okOr (borrow c2Run2 0 700 0)

/-- ... then a touch (a no-op collateral toggle) after 12 years, which runs
interest accrual over the elapsed time. -/
def c2Run4 : State := okOr (setCollateralEnabled c2Run3 0 true 378432000)

/-- A collateral-enabled borrower owing 10 of 100 supplied. -/
def c2W : State :=
  { initState with
    totalSupply := 100, contractBalance := 100
    accounts := fun a => if a = 0 then
      { supplyBalance := 100, borrowBalance := 0, supplyIndex := 10 ^ 18
        borrowIndex := 0, collateralEnabled := true
        accruedRewards := 0, lastRewardUpdate := 0 } else initAccount }

def c2WAfter : State := okOr (borrow c2W 0 10 0)

/-- One full token supplied by account 0; utilization 0, so the supply rate
is 120 basis points on both the view and the mutating path. -/
def c5State : State :=
  { initState with
    totalSupply := 10 ^ 18
    accounts := fun a => if a = 0 then
      { supplyBalance := 10 ^ 18, borrowBalance := 0, supplyIndex := 10 ^ 18
        borrowIndex := 0, collateralEnabled := false
        accruedRewards := 0, lastRewardUpdate := 0 } else initAccount }

/-- Account 0 supplied and enabled collateral but never borrowed: its
stored borrowIndex is still 0. -/
def c6State : State :=
  { initState with
    totalSupply := 100, contractBalance := 100
    accounts := fun a => if a = 0 then
      { supplyBalance := 100, borrowBalance := 0, supplyIndex := 10 ^ 18
        borrowIndex := 0, collateralEnabled := true
        accruedRewards := 0, lastRewardUpdate := 0 } else initAccount }

/-- QieLend (legacy) storage: global borrowIndex 2e18, account 0 with
scaled borrow 1 recorded at index 1e18 (index-adjusted debt 2) and real
supply 200. -/
def c7State : State :=
  { initState with
    totalSupply := 200, totalBorrow := 2
    borrowIndex := 2 * 10 ^ 18
    accounts := fun a => if a = 0 then
      { supplyBalance := 200, borrowBalance := 1, supplyIndex := 10 ^ 18
        borrowIndex := 10 ^ 18, collateralEnabled := true
        accruedRewards := 0, lastRewardUpdate := 0 } else initAccount }

def c7After : State := okOr (QieLendE.withdraw c7State 0 57 0)

/-- A collateral-enabled borrower in QieLendNative owing 10 of 100. -/
def c7W : State :=
  { initState with
    totalSupply := 100, totalBorrow := 10, contractBalance := 100
    accounts := fun a => if a = 0 then
      { supplyBalance := 100, borrowBalance := 10, supplyIndex := 10 ^ 18
        borrowIndex := 10 ^ 18, collateralEnabled := true
        accruedRewards := 0, lastRewardUpdate := 0 } else initAccount }

/-- An otherwise fresh deployment whose exchangeRate has grown to 2e18. -/
def c8State : State :=
  { initState with exchangeRate := 2 * 10 ^ 18, supplyIndex := 2 * 10 ^ 18 }

def c8Mid : State := okOr (supplyNative c8State 0 1 0)

/-- borrowIndex 2e18; account 0 owes a real 20 (scaled 10 at index 1e18). -/
def c9State : State :=
  { initState with
    totalSupply := 100, totalBorrow := 20
    borrowIndex := 2 * 10 ^ 18
    accounts := fun a => if a = 0 then
      { supplyBalance := 0, borrowBalance := 10, supplyIndex := 0
        borrowIndex := 10 ^ 18, collateralEnabled := true
        accruedRewards := 0, lastRewardUpdate := 0 } else initAccount }

def c9After : State := okOr (repay c9State 0 4 0)

/-- Account 0 has 100 accrued rewards but the contract balance is only 30. -/
def c10State : State :=
  { initState with
    contractBalance := 30
    accounts := fun a => if a = 0 then
      { supplyBalance := 0, borrowBalance := 0, supplyIndex := 0
        borrowIndex := 0, collateralEnabled := false
        accruedRewards := 100, lastRewardUpdate := 0 } else initAccount }

def c10After : State := okOr (claimRewards c10State 0 0)

/-- Boundary state for the health factor: real supply 1000, real borrow
800, so healthFactor = (1000·8000/10000)·1e18/800 = exactly 1e18. -/
def c4State : State :=
  { initState with
    totalSupply := 1000, totalBorrow := 800, contractBalance := 1000
    accounts := fun a => if a = 0 then
      { supplyBalance := 1000, borrowBalance := 800, supplyIndex := 10 ^ 18
        borrowIndex := 10 ^ 18, collateralEnabled := true
        accruedRewards := 0, lastRewardUpdate := 0 } else initAccount }

/-! ### Basic facts about accrual and the reward sync -/

/-- Accrual at the timestamp of the last update is a no-op. -/
theorem accrueInterest_noop (s : State) (now : Nat) (h : s.lastUpdateTime = now) :
    accrueInterest s now = s := by
  subst h
  simp [accrueInterest]

@[simp] theorem accrue_accounts (s : State) (now : Nat) :
    (accrueInterest s now).accounts = s.accounts := by
  simp only [accrueInterest]
  split <;> rfl

@[simp] theorem accrue_contractBalance (s : State) (now : Nat) :
    (accrueInterest s now).contractBalance = s.contractBalance := by
  simp only [accrueInterest]
  split <;> rfl

theorem le_accrue_borrowIndex (s : State) (now : Nat) :
    s.borrowIndex ≤ (accrueInterest s now).borrowIndex := by
  simp only [accrueInterest]
  split
  · exact le_refl _
  · simp only []
    split <;> simp

@[simp] theorem uur_totalSupply (s : State) (u : Addr) (now : Nat) :
    (updateUserRewards s u now).totalSupply = s.totalSupply := by
  simp only [updateUserRewards, setAccount]
  split
  · rfl
  · split <;> rfl

@[simp] theorem uur_totalBorrow (s : State) (u : Addr) (now : Nat) :
    (updateUserRewards s u now).totalBorrow = s.totalBorrow := by
  simp only [updateUserRewards, setAccount]
  split
  · rfl
  · split <;> rfl

@[simp] theorem uur_totalReserves (s : State) (u : Addr) (now : Nat) :
    (updateUserRewards s u now).totalReserves = s.totalReserves := by
  simp only [updateUserRewards, setAccount]
  split
  · rfl
  · split <;> rfl

@[simp] theorem uur_lastUpdateTime (s : State) (u : Addr) (now : Nat) :
    (updateUserRewards s u now).lastUpdateTime = s.lastUpdateTime := by
  simp only [updateUserRewards, setAccount]
  split
  · rfl
  · split <;> rfl

@[simp] theorem uur_exchangeRate (s : State) (u : Addr) (now : Nat) :
    (updateUserRewards s u now).exchangeRate = s.exchangeRate := by
  simp only [updateUserRewards, setAccount]
  split
  · rfl
  · split <;> rfl

@[simp] theorem uur_supplyIndexG (s : State) (u : Addr) (now : Nat) :
    (updateUserRewards s u now).supplyIndex = s.supplyIndex := by
  simp only [updateUserRewards, setAccount]
  split
  · rfl
  · split <;> rfl

@[simp] theorem uur_borrowIndexG (s : State) (u : Addr) (now : Nat) :
    (updateUserRewards s u now).borrowIndex = s.borrowIndex := by
  simp only [updateUserRewards, setAccount]
  split
  · rfl
  · split <;> rfl

@[simp] theorem uur_contractBalance (s : State) (u : Addr) (now : Nat) :
    (updateUserRewards s u now).contractBalance = s.contractBalance := by
  simp only [updateUserRewards, setAccount]
  split
  · rfl
  · split <;> rfl

@[simp] theorem uur_acct_supplyBalance (s : State) (u : Addr) (now : Nat) (a : Addr) :
    ((updateUserRewards s u now).accounts a).supplyBalance = (s.accounts a).supplyBalance := by
  simp only [updateUserRewards, setAccount]
  split
  · by_cases h : a = u <;> simp [h]
  · split
    · rfl
    · by_cases h : a = u <;> simp [h]

@[simp] theorem uur_acct_borrowBalance (s : State) (u : Addr) (now : Nat) (a : Addr) :
    ((updateUserRewards s u now).accounts a).borrowBalance = (s.accounts a).borrowBalance := by
  simp only [updateUserRewards, setAccount]
  split
  · by_cases h : a = u <;> simp [h]
  · split
    · rfl
    · by_cases h : a = u <;> simp [h]

@[simp] theorem uur_acct_borrowIndex (s : State) (u : Addr) (now : Nat) (a : Addr) :
    ((updateUserRewards s u now).accounts a).borrowIndex = (s.accounts a).borrowIndex := by
  simp only [updateUserRewards, setAccount]
  split
  · by_cases h : a = u <;> simp [h]
  · split
    · rfl
    · by_cases h : a = u <;> simp [h]

@[simp] theorem uur_acct_supplyIndex (s : State) (u : Addr) (now : Nat) (a : Addr) :
    ((updateUserRewards s u now).accounts a).supplyIndex = (s.accounts a).supplyIndex := by
  simp only [updateUserRewards, setAccount]
  split
  · by_cases h : a = u <;> simp [h]
  · split
    · rfl
    · by_cases h : a = u <;> simp [h]

@[simp] theorem uur_acct_collateralEnabled (s : State) (u : Addr) (now : Nat) (a : Addr) :
    ((updateUserRewards s u now).accounts a).collateralEnabled =
      (s.accounts a).collateralEnabled := by
  simp only [updateUserRewards, setAccount]
  split
  · by_cases h : a = u <;> simp [h]
  · split
    · rfl
    · by_cases h : a = u <;> simp [h]

/-! ### The borrow bookkeeping invariant (carries claim C3)

In every reachable state, each account slot records a borrow index that is
at most the global one (it was copied from the global index at its last
touch, or is still 0), and a slot whose collateral flag is off holds a zero
scaled borrow balance. -/

/-- Invariant of one account slot relative to the global borrow index. -/
def AccountInv (bi : Nat) (a : UserAccount) : Prop :=
  a.borrowIndex ≤ bi ∧ (a.collateralEnabled = false → a.borrowBalance = 0)

/-- Inductive invariant over the protocol state. -/
def StateInv (s : State) : Prop :=
  0 < s.borrowIndex ∧ ∀ a : Addr, AccountInv s.borrowIndex (s.accounts a)

theorem accountInv_mono {bi bi' : Nat} (h : bi ≤ bi') {a : UserAccount}
    (ha : AccountInv bi a) : AccountInv bi' a :=
  ⟨le_trans ha.1 h, ha.2⟩

theorem stateInv_accrue {s : State} (h : StateInv s) (now : Nat) :
    StateInv (accrueInterest s now) := by
  refine ⟨lt_of_lt_of_le h.1 (le_accrue_borrowIndex s now), fun a => ?_⟩
  rw [accrue_accounts]
  exact accountInv_mono (le_accrue_borrowIndex s now) (h.2 a)

theorem stateInv_uur {s : State} (h : StateInv s) (u : Addr) (now : Nat) :
    StateInv (updateUserRewards s u now) := by
  refine ⟨by rw [uur_borrowIndexG]; exact h.1, fun a => ?_⟩
  constructor
  · rw [uur_borrowIndexG, uur_acct_borrowIndex]
    exact (h.2 a).1
  · rw [uur_acct_collateralEnabled, uur_acct_borrowBalance]
    exact (h.2 a).2

theorem stateInv_prep {s : State} (h : StateInv s) (u : Addr) (now : Nat) :
    StateInv (prep s u now) :=
  stateInv_uur (stateInv_accrue h now) u now

/-- Adding `msg.value` to the contract balance does not affect the invariant. -/
theorem stateInv_setBalance {s : State} (h : StateInv s) (x : Nat) :
    StateInv { s with contractBalance := x } :=
  ⟨h.1, fun a => h.2 a⟩

/-- Transfer the invariant to a state that changes at most the slot of one
account `u` (and fields outside the invariant). -/
theorem stateInv_of_update {s : State} (h : StateInv s) (u : Addr) {s' : State}
    (hbi : s'.borrowIndex = s.borrowIndex)
    (hacc : ∀ a, a ≠ u → s'.accounts a = s.accounts a)
    (hidx : (s'.accounts u).borrowIndex ≤ s.borrowIndex)
    (hdis : (s'.accounts u).collateralEnabled = false → (s'.accounts u).borrowBalance = 0) :
    StateInv s' := by
  refine ⟨hbi ▸ h.1, fun a => ?_⟩
  rw [hbi]
  by_cases ha : a = u
  · subst ha
    exact ⟨hidx, hdis⟩
  · rw [hacc a ha]
    exact h.2 a

theorem stateInv_supplyNative {s s' : State} {sender : Addr} {value now : Nat}
    (h : StateInv s) (hok : supplyNative s sender value now = .ok s') : StateInv s' := by
  have hp : StateInv (prep { s with contractBalance := s.contractBalance + value } sender now) :=
    stateInv_prep (stateInv_setBalance h _) sender now
  simp only [supplyNative] at hok
  split at hok
  · exact absurd hok (by simp)
  · rw [Except.ok.injEq] at hok
    subst hok
    refine stateInv_of_update hp sender rfl (fun a ha => by simp [setAccount, ha]) ?_ ?_
    · simp only [setAccount]
      simpa using (hp.2 sender).1
    · simp only [setAccount]
      simpa using (hp.2 sender).2

theorem stateInv_withdraw {s s' : State} {sender : Addr} {amount now : Nat}
    (h : StateInv s) (hok : withdraw s sender amount now = .ok s') : StateInv s' := by
  have hp : StateInv (prep s sender now) := stateInv_prep h sender now
  simp only [withdraw] at hok
  repeat' split at hok
  any_goals exact Except.noConfusion hok
  all_goals rw [Except.ok.injEq] at hok
  all_goals subst hok
  all_goals refine stateInv_of_update hp sender rfl ?_ ?_ ?_
  all_goals
    first
      | (intro a ha; simp [setAccount, ha]; done)
      | (simp only [setAccount]; simpa using (hp.2 sender).1)
      | (simp only [setAccount]; simpa using (hp.2 sender).2)

theorem stateInv_borrow {s s' : State} {sender : Addr} {amount now : Nat}
    (h : StateInv s) (hok : borrow s sender amount now = .ok s') : StateInv s' := by
  have hp : StateInv (prep s sender now) := stateInv_prep h sender now
  simp only [borrow] at hok
  repeat' split at hok
  any_goals exact Except.noConfusion hok
  all_goals rw [Except.ok.injEq] at hok
  all_goals subst hok
  all_goals refine stateInv_of_update hp sender rfl ?_ ?_ ?_
  all_goals
    first
      | (intro a ha; simp [setAccount, ha]; done)
      | (simp [setAccount]; done)
      | (intro hc; simp only [setAccount] at hc; simp at hc; exact absurd hc (by assumption))

theorem stateInv_repay {s s' : State} {sender : Addr} {value now : Nat}
    (h : StateInv s) (hok : repay s sender value now = .ok s') : StateInv s' := by
  have hp : StateInv (prep { s with contractBalance := s.contractBalance + value } sender now) :=
    stateInv_prep (stateInv_setBalance h _) sender now
  simp only [repay] at hok
  repeat' split at hok
  any_goals exact Except.noConfusion hok
  all_goals rw [Except.ok.injEq] at hok
  all_goals subst hok
  all_goals refine stateInv_of_update hp sender rfl ?_ ?_ ?_
  all_goals
    first
      | (intro a ha; simp [setAccount, ha]; done)
      | (simp [setAccount]; done)
      | (intro hc; simp only [setAccount] at hc; simp at hc;
         simp [setAccount, (hp.2 sender).2 hc]; done)

theorem stateInv_setCollateral {s s' : State} {sender : Addr} {enabled : Bool} {now : Nat}
    (h : StateInv s) (hok : setCollateralEnabled s sender enabled now = .ok s') : StateInv s' := by
  have hp : StateInv (prep s sender now) := stateInv_prep h sender now
  set sp := prep s sender now with hsp
  simp only [setCollateralEnabled, ← hsp] at hok
  by_cases hcond : enabled = false ∧ 0 < (sp.accounts sender).borrowBalance
  · rw [if_pos hcond] at hok
    have hbz : ¬ (sp.accounts sender).borrowBalance = 0 :=
      Nat.pos_iff_ne_zero.mp hcond.2
    rw [if_neg hbz] at hok
    have hidxpos : 0 < (if (sp.accounts sender).borrowIndex = 0 then sp.borrowIndex
        else (sp.accounts sender).borrowIndex) := by
      split
      · exact hp.1
      · exact Nat.pos_of_ne_zero (by assumption)
    have hidxle : (if (sp.accounts sender).borrowIndex = 0 then sp.borrowIndex
        else (sp.accounts sender).borrowIndex) ≤ sp.borrowIndex := by
      split
      · exact le_rfl
      · exact (hp.2 sender).1
    have hone : (sp.accounts sender).borrowBalance * sp.borrowIndex /
        (if (sp.accounts sender).borrowIndex = 0 then sp.borrowIndex
         else (sp.accounts sender).borrowIndex) ≠ 0 := by
      have h1 : 1 ≤ (sp.accounts sender).borrowBalance * sp.borrowIndex /
          (if (sp.accounts sender).borrowIndex = 0 then sp.borrowIndex
           else (sp.accounts sender).borrowIndex) := by
        rw [Nat.one_le_div_iff hidxpos]
        exact le_trans hidxle (Nat.le_mul_of_pos_left _ hcond.2)
      omega
    rw [if_pos hone] at hok
    exact Except.noConfusion hok
  · rw [if_neg hcond] at hok
    rw [Except.ok.injEq] at hok
    subst hok
    refine stateInv_of_update hp sender rfl (fun a ha => by simp [setAccount, ha]) ?_ ?_
    · simp only [setAccount]
      simpa using (hp.2 sender).1
    · intro hc
      simp only [setAccount] at hc ⊢
      simp at hc ⊢
      rw [not_and_or] at hcond
      rcases hcond with hcond | hcond
      · exact absurd hc (by simpa using hcond)
      · omega

theorem stateInv_claimRewards {s s' : State} {sender : Addr} {now : Nat}
    (h : StateInv s) (hok : claimRewards s sender now = .ok s') : StateInv s' := by
  have hp : StateInv (prep s sender now) := stateInv_prep h sender now
  simp only [claimRewards] at hok
  split at hok
  · exact absurd hok (by simp)
  · rw [Except.ok.injEq] at hok
    subst hok
    refine stateInv_of_update hp sender rfl (fun a ha => by simp [setAccount, ha]) ?_ ?_
    · simp only [setAccount]
      simpa using (hp.2 sender).1
    · simp only [setAccount]
      simpa using (hp.2 sender).2

theorem stateInv_liquidate {s s' : State} {sender borrower : Addr} {value now : Nat}
    (h : StateInv s) (hok : liquidate s sender borrower value now = .ok s') : StateInv s' := by
  have hp : StateInv (accrueInterest { s with contractBalance := s.contractBalance + value } now) :=
    stateInv_accrue (stateInv_setBalance h _) now
  simp only [liquidate] at hok
  repeat' split at hok
  any_goals exact Except.noConfusion hok
  all_goals rw [Except.ok.injEq] at hok
  all_goals subst hok
  all_goals refine stateInv_of_update hp borrower rfl ?_ ?_ ?_
  all_goals
    first
      | (intro a ha; simp [setAccount, -accrue_accounts, ha]; done)
      | (simp [setAccount, -accrue_accounts]; done)
      | (intro hc; simp only [setAccount] at hc; simp [-accrue_accounts] at hc;
         exact absurd hc (by assumption))

/-- Every reachable state satisfies the borrow bookkeeping invariant. -/
theorem reachable_stateInv {s : State} (h : Reachable s) : StateInv s := by
  induction h with
  | init =>
    refine ⟨by norm_num [initState], fun a => ⟨Nat.zero_le _, fun _ => rfl⟩⟩
  | supplyStep s s' sender value now hr hle hok ih => exact stateInv_supplyNative ih hok
  | withdrawStep s s' sender amount now hr hle hok ih => exact stateInv_withdraw ih hok
  | borrowStep s s' sender amount now hr hle hok ih => exact stateInv_borrow ih hok
  | repayStep s s' sender value now hr hle hok ih => exact stateInv_repay ih hok
  | collateralStep s s' sender enabled now hr hle hok ih => exact stateInv_setCollateral ih hok
  | claimStep s s' sender now hr hle hok ih => exact stateInv_claimRewards ih hok
  | liquidateStep s s' sender borrower value now hr hle hok ih => exact stateInv_liquidate ih hok

/-! ### Claim theorems -/

/-- C3: in every reachable state, an account with collateralEnabled = false
has realBorrow = 0, where realBorrow is the derived value
floor(scaledBorrow × borrowIndex / borrowIndexAtTouch) (0 when the scaled
borrow is 0), i.e. `getBorrowBalance`.  Later accruals that grow the global
borrowIndex cannot resurrect a positive real borrow while collateral stays
disabled, because the scaled balance itself is 0 in every such state: the
disable guard cannot pass with a positive scaled balance (the recorded
account index never exceeds the global one, so the resolved real borrow of
a positive scaled balance is at least 1). -/
theorem reachable_collateral_disabled_realBorrow_zero (s : State) (a : Addr)
    (hs : Reachable s) (hc : (s.accounts a).collateralEnabled = false) :
    getBorrowBalance s a = 0 := by
  have hb : (s.accounts a).borrowBalance = 0 :=
    ((reachable_stateInv hs).2 a).2 hc
  simp [getBorrowBalance, hb]

theorem reachable_collateral_disabled_realBorrow_zero_witness :
    Reachable initState ∧ (initState.accounts 0).collateralEnabled = false ∧
      getBorrowBalance initState 0 = 0 :=
  ⟨.init, rfl, reachable_collateral_disabled_realBorrow_zero initState 0 .init rfl⟩

/-- C2 counterexample: a concrete reachable state in which totalBorrow
exceeds totalSupply.  Account 0 supplies 1000, enables collateral and
borrows 700 at time 0; a later call after 12 years accrues interest at 70%
utilization (borrow rate 900 bp), adding the full interest (755) to
totalBorrow but only interest minus the 40% reserve cut (453) to
totalSupply, ending with totalBorrow = 1455 > 1453 = totalSupply. -/
theorem c2_liquidity_invariant_counterexample :
    Reachable c2Run4 ∧ ¬ (c2Run4.totalBorrow ≤ c2Run4.totalSupply) := by
  constructor
  · exact .collateralStep c2Run3 c2Run4 0 true 378432000
      (.borrowStep c2Run2 c2Run3 0 700 0
        (.collateralStep c2Run1 c2Run2 0 true 0
          (.supplyStep initState c2Run1 0 1000 0 .init (by decide) rfl)
          (by decide) rfl)
        (by decide) rfl)
      (by decide) rfl
  · decide

/-- C2 (amended): totalBorrow ≤ totalSupply holds immediately after every
successful borrow — the InsufficientLiquidity guard enforces it there — but
it is not an invariant of all reachable states: interest accrual at high
utilization (and liquidation) can push totalBorrow above totalSupply, as
the counterexample shows. -/
theorem borrow_ok_totalBorrow_le_totalSupply (s : State) (sender : Addr)
    (amount now : Nat) (s' : State) (h : borrow s sender amount now = .ok s') :
    s'.totalBorrow ≤ s'.totalSupply := by
  simp only [borrow] at h
  repeat' split at h
  any_goals exact Except.noConfusion h
  all_goals rw [Except.ok.injEq] at h
  all_goals subst h
  all_goals exact Nat.le_of_not_lt (by assumption)

theorem borrow_ok_totalBorrow_le_totalSupply_witness :
    borrow c2W 0 10 0 = .ok c2WAfter ∧ c2WAfter.totalBorrow ≤ c2WAfter.totalSupply :=
  ⟨rfl, borrow_ok_totalBorrow_le_totalSupply c2W 0 10 0 c2WAfter rfl⟩

/-- C1 (code bug): the claim (and the spec's touchBorrow) requires borrow
to resolve the old real borrow with the old index, add the amount, and
re-scale by the current borrowIndex, so that the real borrow afterwards is
the old real borrow plus the amount (up to floor rounding).  The code's
borrow (line 125) instead adds amount·1e18/borrowIndex to the stored scaled
balance and overwrites the account index: starting from a real borrow of
200 (scaled 100 at index 1e18, global index 2e18) and borrowing 10, the
real borrow afterwards is 105, not 210 — the accrued interest is erased. -/
theorem c1_borrow_erases_accrued_interest :
    getBorrowBalance c1State 0 = 200 ∧
    borrow c1State 0 10 0 = .ok c1After ∧
    getBorrowBalance c1After 0 = 105 ∧
    getBorrowBalance c1After 0 ≠ getBorrowBalance c1State 0 + 10 :=
  ⟨by decide, rfl, by decide, by decide⟩

/-- C5 (code bug): the read-only getAccruedRewards scales the APY to 1e18
(line 276) and divides by seconds-per-year but never unscales by 1e18, so
it disagrees with the mutating _updateUserRewards by a factor of about
1e18: on a 1-token deposit after one second at a 120 bp supply rate the
view reports 380517503805175038051750380 while the sync records 380517503. -/
theorem c5_rewards_view_disagrees_with_sync :
    getAccruedRewards c5State 0 1 = 380517503805175038051750380 ∧
    ((updateUserRewards c5State 0 1).accounts 0).accruedRewards = 380517503 ∧
    getAccruedRewards c5State 0 1 ≠
      ((updateUserRewards c5State 0 1).accounts 0).accruedRewards :=
  ⟨by decide, by decide, by decide⟩

/-- C6 (code bug): liquidating a collateral-enabled borrower that never
borrowed (scaled borrow 0, stored borrowIndexAtTouch still 0) reverts with
the division-by-zero arithmetic panic of line 196 — the one call site that
omits the zero-index guard every other function has — not with the
NotLiquidatable error the claim prescribes.  (Both are reverts, so the
state is unchanged either way.) -/
theorem c6_liquidate_fresh_borrower_divzero :
    liquidate c6State 1 0 50 0 = .error .DivisionByZero ∧
    Err.DivisionByZero ≠ Err.NotLiquidatable :=
  ⟨rfl, by decide⟩

/-- C7 counterexample: in the legacy QieLend contract, withdraw's
collateral check (line 467) compares the stored scaled borrowBalance (here
1) against maxBorrow instead of the index-adjusted debt
scaledBorrow × borrowIndex / borrowIndexAtTouch (here 2).  With realSupply
200, amount 57, collateralFactor 70: (200−57)·70/10000 = 1 < 2 = realBorrow,
so the claim requires the call to fail, but it succeeds. -/
theorem c7_legacy_withdraw_uses_stale_borrow :
    QieLendE.withdraw c7State 0 57 0 = .ok c7After ∧
    (getSupplyBalance c7State 0 - 57) * QieLendE.COLLATERAL_FACTOR / 10000 <
      (c7State.accounts 0).borrowBalance * c7State.borrowIndex /
        (c7State.accounts 0).borrowIndex :=
  ⟨rfl, by decide⟩

/-- C8 counterexample: at exchangeRate 2e18 (≥ 1e18), supplying 1 floors
the scaled credit 1·1e18/2e18 to 0, so the immediate withdraw of the same
amount at the same timestamp fails with InsufficientBalance instead of
succeeding. -/
theorem c8_roundtrip_counterexample :
    10 ^ 18 ≤ c8State.exchangeRate ∧
    supplyNative c8State 0 1 0 = .ok c8Mid ∧
    withdraw c8Mid 0 1 0 = .error .InsufficientBalance :=
  ⟨by decide, rfl, rfl⟩

/-- C9 (code bug): repay computes repayAmount = min(amount, realBorrow),
reduces totalBorrow by exactly repayAmount and has no failure mode other
than amount = 0; but the write-back
scaledBorrow = (realBorrow − repayAmount)·1e18/borrowIndex together with
borrowIndexAtTouch = borrowIndex makes the account's real borrow afterwards
floor((realBorrow − repayAmount)·1e18/borrowIndex): repaying 4 of a real 20
at borrowIndex 2e18 leaves a real borrow of 8, not 16. -/
theorem c9_repay_rescales_remaining_debt :
    getBorrowBalance c9State 0 = 20 ∧
    repay c9State 0 4 0 = .ok c9After ∧
    c9After.totalBorrow = c9State.totalBorrow - 4 ∧
    getBorrowBalance c9After 0 = 8 ∧
    getBorrowBalance c9After 0 ≠ getBorrowBalance c9State 0 - 4 :=
  ⟨by decide, rfl, by decide, by decide, by decide⟩

/-- C10: whenever claimRewards succeeds, the account's accruedRewards field
is set to exactly 0 — also in the case where the transferred amount is
capped at the contract's native balance strictly below the accrued total —
and the amount paid out is min(accrued total after the reward sync,
contract balance): the unpaid shortfall is forfeited, not retained. -/
theorem claimRewards_zeroes_accrued (s : State) (user : Addr) (now : Nat) (s' : State)
    (h : claimRewards s user now = .ok s') :
    (s'.accounts user).accruedRewards = 0 ∧
    s'.contractBalance = s.contractBalance -
      min ((prep s user now).accounts user).accruedRewards s.contractBalance := by
  simp only [claimRewards] at h
  split at h
  · exact Except.noConfusion h
  · rw [Except.ok.injEq] at h
    subst h
    constructor
    · simp [setAccount]
    · simp only [setAccount, prep]
      simp [Nat.min_def]
      split_ifs <;> omega

theorem claimRewards_zeroes_accrued_witness :
    claimRewards c10State 0 0 = .ok c10After ∧
    c10State.contractBalance < ((prep c10State 0 0).accounts 0).accruedRewards ∧
    (c10After.accounts 0).accruedRewards = 0 ∧
    c10After.contractBalance = c10State.contractBalance -
      min ((prep c10State 0 0).accounts 0).accruedRewards c10State.contractBalance :=
  ⟨rfl, by decide, (claimRewards_zeroes_accrued c10State 0 0 c10After rfl).1,
    (claimRewards_zeroes_accrued c10State 0 0 c10After rfl).2⟩

/-- C4: for a collateral-enabled borrower with a positive index-adjusted
real borrow (recorded borrowIndexAtTouch nonzero), a positive repay value
and a distinct liquidator, liquidate at the current timestamp rejects with
NotLiquidatable exactly when the health factor
floor(floor(realSupply·8000/10000)·1e18/realBorrow) is at least 1e18;
equivalently, liquidation is permitted iff the health factor is strictly
below 1e18, so the boundary value exactly 1e18 is not liquidatable and any
value just below it passes the health check. -/
theorem liquidate_notLiquidatable_iff (s : State) (liq bor : Addr) (value : Nat)
    (hv : 0 < value) (hne : bor ≠ liq)
    (hen : (s.accounts bor).collateralEnabled = true)
    (hidx : (s.accounts bor).borrowIndex ≠ 0)
    (hrb : 0 < (s.accounts bor).borrowBalance * s.borrowIndex / (s.accounts bor).borrowIndex) :
    (liquidate s liq bor value s.lastUpdateTime = .error .NotLiquidatable) ↔
      10 ^ 18 ≤ getSupplyBalance s bor * LIQUIDATION_THRESHOLD / 10000 * 10 ^ 18 /
        ((s.accounts bor).borrowBalance * s.borrowIndex / (s.accounts bor).borrowIndex) := by
  have hacc : accrueInterest { s with contractBalance := s.contractBalance + value }
      s.lastUpdateTime = { s with contractBalance := s.contractBalance + value } :=
    accrueInterest_noop _ _ rfl
  simp only [liquidate, hacc, getSupplyBalance]
  rw [if_neg (Nat.pos_iff_ne_zero.mp hv)]
  rw [if_neg hne]
  rw [if_neg (by simp [hen] : ¬ (s.accounts bor).collateralEnabled = false)]
  rw [if_neg hidx]
  rw [calculateHealthFactor, if_neg (Nat.pos_iff_ne_zero.mp hrb)]
  by_cases hH : 10 ^ 18 ≤ (s.accounts bor).supplyBalance * s.exchangeRate / 10 ^ 18 *
      LIQUIDATION_THRESHOLD / 10000 * 10 ^ 18 /
      ((s.accounts bor).borrowBalance * s.borrowIndex / (s.accounts bor).borrowIndex)
  · rw [if_pos hH]
    exact ⟨fun _ => hH, fun _ => rfl⟩
  · rw [if_neg hH]
    constructor
    · intro hcontra
      exfalso
      repeat' split at hcontra
      all_goals simp at hcontra
    · intro hcontra
      exact absurd hcontra hH

theorem liquidate_notLiquidatable_iff_witness :
    (0:Nat) < 100 ∧
    liquidate c4State 1 0 100 c4State.lastUpdateTime = .error .NotLiquidatable :=
  ⟨by decide,
    (liquidate_notLiquidatable_iff c4State 1 0 100 (by decide) (by decide) (by decide)
      (by decide) (by decide)).mpr (by decide)⟩

/-- C7 (amended): in QieLendNative, for a collateral-enabled account with a
positive scaled borrow and a nonzero recorded index, a withdraw of
0 < amount ≤ realSupply at the current timestamp succeeds when
(realSupply − amount)·collateralFactor/10000 is at least the index-adjusted
realBorrow = scaledBorrow·borrowIndex/borrowIndexAtTouch, and fails with
the CollateralDisabled error (no state change: the revert rolls everything
back) when it is strictly smaller.  The original claim also asserted this
for the legacy QieLend contract, which instead compares the stale stored
scaled balance — refuted by the counterexample. -/
theorem withdraw_collateral_check_iff (s : State) (sender : Addr) (amount : Nat)
    (hen : (s.accounts sender).collateralEnabled = true)
    (hbb : 0 < (s.accounts sender).borrowBalance)
    (hidx : (s.accounts sender).borrowIndex ≠ 0)
    (h0 : 0 < amount)
    (hbal : amount ≤ getSupplyBalance s sender)
    (hts : amount ≤ s.totalSupply)
    (hcb : amount ≤ s.contractBalance) :
    ((s.accounts sender).borrowBalance * s.borrowIndex / (s.accounts sender).borrowIndex ≤
        (getSupplyBalance s sender - amount) * COLLATERAL_FACTOR / 10000 →
      ∃ s', withdraw s sender amount s.lastUpdateTime = .ok s') ∧
    ((getSupplyBalance s sender - amount) * COLLATERAL_FACTOR / 10000 <
        (s.accounts sender).borrowBalance * s.borrowIndex / (s.accounts sender).borrowIndex →
      withdraw s sender amount s.lastUpdateTime = .error .CollateralDisabled) := by
  have hacc : accrueInterest s s.lastUpdateTime = s := accrueInterest_noop _ _ rfl
  simp only [withdraw, prep, hacc, getSupplyBalance] at *
  simp only [uur_acct_supplyBalance, uur_acct_borrowBalance, uur_acct_borrowIndex,
    uur_acct_collateralEnabled, uur_exchangeRate, uur_borrowIndexG, uur_totalSupply,
    uur_supplyIndexG, uur_contractBalance]
  rw [if_neg (Nat.pos_iff_ne_zero.mp h0)]
  rw [if_neg (not_lt.mpr hbal)]
  rw [if_neg hidx]
  constructor
  · intro hle
    rw [if_neg (fun hC => absurd hC.2.2 (not_lt.mpr hle))]
    rw [if_neg (not_lt.mpr (le_trans hcb (by simp [setAccount])))]
    exact ⟨_, rfl⟩
  · intro hlt
    rw [if_pos ⟨hen, hbb, hlt⟩]

theorem withdraw_collateral_check_iff_witness :
    (0:Nat) < 50 ∧
    ∃ s', withdraw c7W 0 50 c7W.lastUpdateTime = .ok s' :=
  ⟨by decide,
    (withdraw_collateral_check_iff c7W 0 50 (by decide) (by decide) (by decide) (by decide)
      (by decide) (by decide) (by decide)).1 (by decide)⟩

/-- A withdraw at the current timestamp succeeds when the caller has enough
real balance, the collateral check passes, and the contract holds the
amount; the result reduces totalSupply by the amount and the scaled balance
by amount·1e18/exchangeRate. -/
theorem withdraw_ok_of (t : State) (user : Addr) (X : Nat)
    (hX : 0 < X)
    (husb : X ≤ (t.accounts user).supplyBalance * t.exchangeRate / 10 ^ 18)
    (hltv : ¬((t.accounts user).collateralEnabled = true ∧
      0 < (t.accounts user).borrowBalance ∧
      ((t.accounts user).supplyBalance * t.exchangeRate / 10 ^ 18 - X) *
          COLLATERAL_FACTOR / 10000 <
        (t.accounts user).borrowBalance * t.borrowIndex /
          (if (t.accounts user).borrowIndex = 0 then t.borrowIndex
           else (t.accounts user).borrowIndex)))
    (hcb : X ≤ t.contractBalance) :
    withdraw t user X t.lastUpdateTime = .ok (okOr (withdraw t user X t.lastUpdateTime)) ∧
    (okOr (withdraw t user X t.lastUpdateTime)).totalSupply = t.totalSupply - X ∧
    (okOr (withdraw t user X t.lastUpdateTime)).exchangeRate = t.exchangeRate ∧
    ((okOr (withdraw t user X t.lastUpdateTime)).accounts user).supplyBalance =
      (t.accounts user).supplyBalance - X * 10 ^ 18 / t.exchangeRate := by
  have hacc : accrueInterest t t.lastUpdateTime = t := accrueInterest_noop _ _ rfl
  simp only [withdraw, prep, hacc]
  simp only [uur_acct_supplyBalance, uur_acct_borrowBalance, uur_acct_borrowIndex,
    uur_acct_collateralEnabled, uur_exchangeRate, uur_borrowIndexG, uur_totalSupply,
    uur_supplyIndexG, uur_contractBalance]
  rw [if_neg (Nat.pos_iff_ne_zero.mp hX), if_neg (not_lt.mpr husb), if_neg hltv,
    if_neg (not_lt.mpr (le_trans hcb (by simp [setAccount])))]
  refine ⟨rfl, ?_, ?_, ?_⟩
  · simp [okOr, setAccount]
  · simp [okOr, setAccount]
  · simp [okOr, setAccount]

/-- C8 (amended): in a state with exchangeRate = 1e18 (no supply interest
accrued yet), supplying X > 0 and immediately withdrawing X at the same
timestamp both succeed and leave totalSupply and the account's realSupply
at their pre-supply values, provided the account's existing borrow (if any)
satisfies the withdraw LTV check at its pre-supply scaled balance — in
particular for any account with no outstanding borrow.  At exchangeRate
above 1e18 the original claim fails (see the counterexample), because the
supply credit X·1e18/exchangeRate floors. -/
theorem supply_withdraw_roundtrip (s : State) (user : Addr) (X : Nat)
    (hX : 0 < X)
    (hE : s.exchangeRate = 10 ^ 18)
    (hltv : (s.accounts user).collateralEnabled = true → 0 < (s.accounts user).borrowBalance →
      (s.accounts user).borrowBalance * s.borrowIndex /
          (if (s.accounts user).borrowIndex = 0 then s.borrowIndex
           else (s.accounts user).borrowIndex) ≤
        (s.accounts user).supplyBalance * COLLATERAL_FACTOR / 10000) :
    ∃ s1 s2, supplyNative s user X s.lastUpdateTime = .ok s1 ∧
      withdraw s1 user X s.lastUpdateTime = .ok s2 ∧
      s2.totalSupply = s.totalSupply ∧
      getSupplyBalance s2 user = getSupplyBalance s user := by
  have hX0 : ¬ X = 0 := Nat.pos_iff_ne_zero.mp hX
  have hpow : (0:Nat) < 10 ^ 18 := by norm_num
  have hXdiv : X * 10 ^ 18 / 10 ^ 18 = X := Nat.mul_div_cancel X hpow
  have ha1 : accrueInterest { s with contractBalance := s.contractBalance + X }
      s.lastUpdateTime = { s with contractBalance := s.contractBalance + X } :=
    accrueInterest_noop _ _ rfl
  set s1 := okOr (supplyNative s user X s.lastUpdateTime) with hs1
  have hsup : supplyNative s user X s.lastUpdateTime = .ok s1 := by
    rw [hs1]
    simp only [supplyNative, prep, ha1]
    rw [if_neg hX0]
    rfl
  have h1E : s1.exchangeRate = 10 ^ 18 := by
    rw [hs1]
    simp only [supplyNative, prep, ha1]
    rw [if_neg hX0]
    simp [okOr, setAccount, hE]
  have h1LT : s1.lastUpdateTime = s.lastUpdateTime := by
    rw [hs1]
    simp only [supplyNative, prep, ha1]
    rw [if_neg hX0]
    simp [okOr, setAccount]
  have h1TS : s1.totalSupply = s.totalSupply + X := by
    rw [hs1]
    simp only [supplyNative, prep, ha1]
    rw [if_neg hX0]
    simp [okOr, setAccount]
  have h1CB : s1.contractBalance = s.contractBalance + X := by
    rw [hs1]
    simp only [supplyNative, prep, ha1]
    rw [if_neg hX0]
    simp [okOr, setAccount]
  have h1BI : s1.borrowIndex = s.borrowIndex := by
    rw [hs1]
    simp only [supplyNative, prep, ha1]
    rw [if_neg hX0]
    simp [okOr, setAccount]
  have h1SB : (s1.accounts user).supplyBalance = (s.accounts user).supplyBalance + X := by
    rw [hs1]
    simp only [supplyNative, prep, ha1]
    rw [if_neg hX0]
    simp [okOr, setAccount, hE, hXdiv]
  have h1BB : (s1.accounts user).borrowBalance = (s.accounts user).borrowBalance := by
    rw [hs1]
    simp only [supplyNative, prep, ha1]
    rw [if_neg hX0]
    simp [okOr, setAccount]
  have h1BIdx : (s1.accounts user).borrowIndex = (s.accounts user).borrowIndex := by
    rw [hs1]
    simp only [supplyNative, prep, ha1]
    rw [if_neg hX0]
    simp [okOr, setAccount]
  have h1CE : (s1.accounts user).collateralEnabled = (s.accounts user).collateralEnabled := by
    rw [hs1]
    simp only [supplyNative, prep, ha1]
    rw [if_neg hX0]
    simp [okOr, setAccount]
  have husb1 : (s1.accounts user).supplyBalance * s1.exchangeRate / 10 ^ 18 =
      (s.accounts user).supplyBalance + X := by
    rw [h1SB, h1E, Nat.mul_div_cancel _ hpow]
  have hW := withdraw_ok_of s1 user X hX
    (by rw [husb1]; omega)
    (by
      rw [husb1, h1BB, h1BIdx, h1CE, h1BI]
      rintro ⟨hc1, hc2, hc3⟩
      have hle := hltv hc1 hc2
      rw [Nat.add_sub_cancel] at hc3
      omega)
    (by rw [h1CB]; omega)
  rw [h1LT] at hW
  refine ⟨s1, okOr (withdraw s1 user X s.lastUpdateTime), hsup, hW.1, ?_, ?_⟩
  · rw [hW.2.1, h1TS]
    omega
  · simp only [getSupplyBalance]
    rw [hW.2.2.2, hW.2.2.1, h1E, hXdiv, h1SB, Nat.add_sub_cancel, hE]

theorem supply_withdraw_roundtrip_witness :
    (0:Nat) < 5 ∧
    ∃ s1 s2, supplyNative initState 0 5 initState.lastUpdateTime = .ok s1 ∧
      withdraw s1 0 5 initState.lastUpdateTime = .ok s2 ∧
      s2.totalSupply = initState.totalSupply ∧
      getSupplyBalance s2 0 = getSupplyBalance initState 0 :=
  ⟨by decide, supply_withdraw_roundtrip initState 0 5 (by decide) rfl (by decide)⟩

end QieLendN
